import Mathlib

/-
Shallow embedding of the rdslint ("dbcheck") cluster-discovery and
compliance-evaluation core (src/main.go).

Modelling conventions:
* Go strings are modelled at the character level as Lean `String`s
  (all names involved — hostnames, zone names, parameter names — are
  ASCII, where Go's byte indexing and Lean's character indexing agree).
* AWS control-plane calls and database queries are effectful round-trips;
  they are modelled as input oracles: the value such a call would return,
  of type `Except Unit α` (`.error ()` is a failed call).  The decision
  logic applied to those results is translated from the source.
* Pointer dereference of a field the code never nil-checks is modelled as
  a plain value; a dereference / index that can actually fail at runtime
  (a nil response, indexing `[0]` of an empty slice, a negative string
  slice bound) is modelled explicitly with a `fault` result constructor,
  mirroring a Go runtime panic.
* The Prometheus gauges written by the evaluators are modelled by the
  final numeric value of the gauge (gauges start at 0; `Set` overwrites).
-/

namespace Dbcheck

/-- A Route53 hosted zone as consumed by `lookupHostedZone`:
its `Name` (which may carry a trailing dot) and its `Id`. -/
structure HostedZone where
  name : String
  id : String
deriving DecidableEq

/-- A Route53 resource record set as consumed by `lookupClusterName`:
its `Name` and the list of its resource-record `Value`s. -/
structure RecordSet where
  name : String
  resourceRecords : List String
deriving DecidableEq

/-- One RDS configuration parameter (`rds.Parameter`): `ParameterName`
(dereferenced unconditionally by the code) and `ParameterValue`
(a possibly-nil pointer, hence `Option`). -/
structure Param where
  name : String
  value : Option String
deriving DecidableEq

/-- One entry of an instance's `DBParameterGroups` list:
`DBParameterGroupName` and `ParameterApplyStatus`. -/
structure ParamGroupRef where
  name : String
  parameterApplyStatus : String
deriving DecidableEq

/-- One entry of the cluster's `DBClusterMembers` list:
`DBInstanceIdentifier` and `DBClusterParameterGroupStatus`. -/
structure Member where
  dbInstanceIdentifier : String
  dbClusterParameterGroupStatus : String
deriving DecidableEq

/-- The fields of `rds.DBInstance` the program reads. -/
structure DBInstance where
  dbInstanceIdentifier : String
  dbInstanceClass : String
  engineVersion : String
  iamDatabaseAuthenticationEnabled : Bool
  dbParameterGroups : List ParamGroupRef
deriving DecidableEq

deriving instance DecidableEq for Except

/-- One of the cluster's `AssociatedRoles`: its `Status`, the resource
part of its `RoleArn` as produced by `arn.Parse` (`none` when parsing
fails), and the result of the `ListAttachedRolePolicies` call for the
role (the list of attached `PolicyArn`s, or a failed call). -/
structure RoleInfo where
  status : String
  arnResource : Option String
  policies : Except Unit (List String)
deriving DecidableEq

/-- The fields of `rds.DBCluster` the program reads. -/
structure Cluster where
  endpoint : String
  status : String
  dbClusterParameterGroup : String
  dbClusterMembers : List Member
  associatedRoles : List RoleInfo
deriving DecidableEq

/-- The assembled snapshot (`dbinfo` in the source): the resolved
cluster, its member instances and the merged flat parameter list. -/
structure Dbinfo where
  cluster : Cluster
  dbs : List DBInstance
  params : List Param
deriving DecidableEq

/-- The error values the assembly path can produce: a failed
control-plane call, or one of the three `fmt.Errorf` not-found errors. -/
inductive LintErr where
  | provider
  | zoneNotFound (host : String)
  | noAlias (host : String)
  | noCluster (host : String)
deriving DecidableEq

/-- Result of a Go `(value, err)` computation that can additionally
abort with a runtime panic: `ok` (nil error), `err` (non-nil error),
or `fault` (runtime panic — negative slice bound, nil dereference,
index out of range). -/
inductive Res (α : Type) where
  | ok (a : α)
  | err (e : LintErr)
  | fault
deriving DecidableEq

/-- What one run of the `DescribeDBParameters` paginator delivers:
the pages produced by successive `p.Next` calls, and `p.Err()` —
`some ()` when pagination stopped because of an error. -/
structure PageStream where
  pages : List (List Param)
  pageErr : Option Unit
deriving DecidableEq

/-- The RDS control-plane oracle consumed by `describeCluster`:
the `DescribeDBClusters` result, the `DescribeDBClusterParameters`
result per cluster parameter-group name, the `DescribeDBInstances`
result per member identifier, and the `DescribeDBParameters`
paginator run per instance parameter-group name. -/
structure RdsOracle where
  clusters : Except Unit (List Cluster)
  clusterParams : String → Except Unit (List Param)
  instances : String → Except Unit (List DBInstance)
  paramPages : String → PageStream

/- ------------------------------------------------------------------
DNS Resolver (main.go 724-765)
------------------------------------------------------------------ -/

/-- `strings.TrimRight(name, ".")`: remove every trailing dot. -/
def trimRightDot (s : String) : String :=
  ⟨(s.data.reverse.dropWhile (fun c => c == '.')).reverse⟩

/-- The zone loop of `lookupHostedZone` (main.go 733-744).  For each
zone, `name := strings.TrimRight(*v.Name, ".")`, then the code slices
`h.mysqlhost[len(h.mysqlhost)-len(name):]`: when `len(name)` exceeds
`len(h.mysqlhost)` the slice bound is negative and Go panics
(`fault`); otherwise the slice equals `name` exactly when `name` is a
suffix of the hostname, and the first such zone's `Id` is returned.
After the loop: `fmt.Errorf("no hosted zone found for %s", ...)`. -/
def zoneScan (mysqlhost : String) : List HostedZone → Res String
  | [] => .err (.zoneNotFound mysqlhost)
  | z :: zs =>
    if mysqlhost.length < (trimRightDot z.name).length then .fault
    else if mysqlhost.drop (mysqlhost.length - (trimRightDot z.name).length)
        == trimRightDot z.name then .ok z.id
    else zoneScan mysqlhost zs

/-- `handler.lookupHostedZone` (main.go 724-745): on a failed
`ListHostedZones` call the error is returned; otherwise the zone
list is scanned. -/
def lookupHostedZone (mysqlhost : String)
    (listing : Except Unit (List HostedZone)) : Res String :=
  match listing with
  | .error _ => .err .provider
  | .ok zs => zoneScan mysqlhost zs

/-- The record loop of `lookupClusterName` (main.go 757-763): return
`*v.ResourceRecords[0].Value` of the first record set whose `Name`
equals `mysqlhost + "."` — indexing `[0]` of an empty record list is a
runtime panic; after the loop, `fmt.Errorf("no alias found ...")`.
The returned value is not modified in any way. -/
def recordScan (mysqlhost : String) : List RecordSet → Res String
  | [] => .err (.noAlias mysqlhost)
  | r :: rs =>
    if r.name == mysqlhost ++ "." then
      match r.resourceRecords with
      | [] => .fault
      | v :: _ => .ok v
    else recordScan mysqlhost rs

/-- `handler.lookupClusterName` (main.go 747-765).  `records` is the
`ListResourceRecordSets` oracle, keyed by the hosted-zone id.  The
error of that request is assigned but never examined (main.go 756):
when the request fails the response pointer is nil, and evaluating
`listrecords.ResourceRecordSets` to range over it panics — so a
failed listing is a `fault`, never the provider error. -/
def lookupClusterName (mysqlhost : String)
    (zones : Except Unit (List HostedZone))
    (records : String → Except Unit (List RecordSet)) : Res String :=
  match lookupHostedZone mysqlhost zones with
  | .fault => .fault
  | .err e => .err e
  | .ok hz =>
    match records hz with
    | .error _ => .fault
    | .ok rs => recordScan mysqlhost rs

/- ------------------------------------------------------------------
Cluster Locator & Parameter Aggregator (main.go 767-832)
------------------------------------------------------------------ -/

/-- The `DescribeDBParameters` pagination loop (main.go 818-823):
`for p.Next(...) { dbInfo.Params = append(dbInfo.Params,
p.CurrentPage().Parameters...) }` — every delivered page is appended,
and `p.Err()` is never consulted. -/
def drainPages (s : PageStream) : List Param :=
  s.pages.flatten

/-- The inner loop over one instance's `DBParameterGroups`
(main.go 808-825): each group's user-modified parameters are paged
through and appended (a differing group name is only logged). -/
def groupLoop (o : RdsOracle) (acc : List Param) :
    List ParamGroupRef → List Param
  | [] => acc
  | g :: gs => groupLoop o (acc ++ drainPages (o.paramPages g.name)) gs

/-- The loop over `dbInfo.DBs` (main.go 805-826): for each instance the
code first evaluates `db.DBParameterGroups[0]` — a runtime panic when
the list is empty — and then pages through every group. -/
def instParamLoop (o : RdsOracle) (acc : List Param) :
    List DBInstance → Res (List Param)
  | [] => .ok acc
  | db :: dbs =>
    match db.dbParameterGroups with
    | [] => .fault
    | _ :: _ => instParamLoop o (groupLoop o acc db.dbParameterGroups) dbs

/-- The loop over `v.DBClusterMembers` (main.go 796-804): one
`DescribeDBInstances` call per member, appending the returned
instances in order; a failed call aborts with that error. -/
def fetchInstances (o : RdsOracle) : List Member → Except Unit (List DBInstance)
  | [] => .ok []
  | m :: ms =>
    match o.instances m.dbInstanceIdentifier with
    | .error e => .error e
    | .ok ins =>
      match fetchInstances o ms with
      | .error e => .error e
      | .ok rest => .ok (ins ++ rest)

/-- Assembly of `dbinfo` for the matched cluster (main.go 780-828):
seed `Params` from the cluster parameter group's user-modified
parameters, describe every member instance, then merge every instance
parameter group's pages. -/
def assembleCluster (o : RdsOracle) (c : Cluster) : Res Dbinfo :=
  match o.clusterParams c.dbClusterParameterGroup with
  | .error _ => .err .provider
  | .ok cps =>
    match fetchInstances o c.dbClusterMembers with
    | .error _ => .err .provider
    | .ok dbs =>
      match instParamLoop o cps dbs with
      | .ok ps => .ok ⟨c, dbs, ps⟩
      | .err e => .err e
      | .fault => .fault

/-- The loop over `result.DBClusters` (main.go 778-830): the first
cluster whose `*v.Endpoint` equals the resolved DNS endpoint is
assembled; after the loop, `fmt.Errorf("no cluster info found ...")`. -/
def clusterScan (mysqlhost dnsEndpoint : String) (o : RdsOracle) :
    List Cluster → Res Dbinfo
  | [] => .err (.noCluster mysqlhost)
  | c :: cs =>
    if c.endpoint == dnsEndpoint then assembleCluster o c
    else clusterScan mysqlhost dnsEndpoint o cs

/-- `handler.describeCluster` (main.go 767-832). -/
def describeCluster (mysqlhost : String)
    (zones : Except Unit (List HostedZone))
    (records : String → Except Unit (List RecordSet))
    (o : RdsOracle) : Res Dbinfo :=
  match lookupClusterName mysqlhost zones records with
  | .fault => .fault
  | .err e => .err e
  | .ok dnsEndpoint =>
    match o.clusters with
    | .error _ => .err .provider
    | .ok cs => clusterScan mysqlhost dnsEndpoint o cs

/- ------------------------------------------------------------------
Policy evaluators (main.go 634-722)
------------------------------------------------------------------ -/

/-- `handler.instanceClass` (main.go 634-641): the `DBInstanceClass`
of the first instance whose class is non-empty, else `""`. -/
def instanceClass : List DBInstance → String
  | [] => ""
  | db :: dbs =>
    if db.dbInstanceClass != "" then db.dbInstanceClass else instanceClass dbs

/-- `handler.engineVersion` (main.go 643-650): the `EngineVersion`
of the first instance whose version is non-empty, else `""`. -/
def engineVersion : List DBInstance → String
  | [] => ""
  | db :: dbs =>
    if db.engineVersion != "" then db.engineVersion else engineVersion dbs

/-- The instance loop of `handler.iamEnabled` (main.go 680-687)
threading the gauge value: `countMetric.Set(1)` for an instance whose
IAM flag is set, only a log line otherwise. -/
def iamLoop : List DBInstance → Nat → Nat
  | [], g => g
  | db :: dbs, g =>
    if db.iamDatabaseAuthenticationEnabled then iamLoop dbs 1 else iamLoop dbs g

/-- `handler.iamEnabled` (main.go 678-689): the gauge starts at 0 and
is set to 1 for every instance with the IAM flag on; it is never set
to 0. -/
def iamEnabled (dbs : List DBInstance) : Nat :=
  iamLoop dbs 0

/-- The member loop of `handler.insync` (main.go 654-661): return the
zero gauge at the first member whose `DBClusterParameterGroupStatus`
differs from `"in-sync"`. -/
def insyncMembers : List Member → Bool
  | [] => true
  | m :: ms =>
    if m.dbClusterParameterGroupStatus != "in-sync" then false
    else insyncMembers ms

/-- The group loop within one instance (main.go 664-672). -/
def insyncGroups : List ParamGroupRef → Bool
  | [] => true
  | g :: gs =>
    if g.parameterApplyStatus != "in-sync" then false else insyncGroups gs

/-- The instance loop of `handler.insync` (main.go 663-673). -/
def insyncDBs : List DBInstance → Bool
  | [] => true
  | db :: dbs =>
    if insyncGroups db.dbParameterGroups then insyncDBs dbs else false

/-- `handler.insync` (main.go 652-676), as the final gauge value: 0 when
either loop returns early at an out-of-sync entity, 1 otherwise. -/
def insync (c : Cluster) (dbs : List DBInstance) : Nat :=
  if insyncMembers c.dbClusterMembers then
    if insyncDBs dbs then 1 else 0
  else 0

/-- `handler.lookup` (main.go 712-722): scan `Params` in order and
return the value of the first entry whose `*ParameterName` equals the
key and whose `ParameterValue` is non-nil; a matching entry with a nil
value is skipped (the loop continues); `""` when nothing matches. -/
def lookup (params : List Param) (key : String) : String
  := match params with
  | [] => ""
  | p :: ps =>
    if p.name == key then
      match p.value with
      | some v => v
      | none => lookup ps key
    else lookup ps key

/- ------------------------------------------------------------------
Lambda-Integration checker (main.go 363-492)
------------------------------------------------------------------ -/

/-- A single-quote character (U+0027), used by the SQL grant string
and the HTML snippets the checker builds. -/
def quo : String := String.singleton (Char.ofNat 39)

/-- `fmt.Sprintf("GRANT EXECUTE ON *.* TO '%s'@'%%'", invoker)`
(main.go 394). -/
def grantStr (invoker : String) : String :=
  "GRANT EXECUTE ON *.* TO " ++ quo ++ invoker ++ quo ++ "@" ++ quo ++ "%" ++ quo

/-- The required managed policy ARN (main.go 428). -/
def lambdaFullAccess : String := "arn:aws:iam::aws:policy/AWSLambdaFullAccess"

/-- The loop over `h.dbInfo.Cluster.AssociatedRoles` (main.go 405-436).
Non-"ACTIVE" roles are only logged; an unparsable `RoleArn` is skipped
with `continue`; a failed `ListAttachedRolePolicies` call makes the
handler return at once (main.go 420-424) — before the gate verdict;
otherwise `lambdaAccess` becomes true when some attached policy is the
required one, and the outer loop continues with the next role (the
`break` only leaves the inner policies loop). -/
def scanRoles (acc : Bool) : List RoleInfo → Except Unit Bool
  | [] => .ok acc
  | r :: rs =>
    if r.status == "ACTIVE" then
      match r.arnResource with
      | none => scanRoles acc rs
      | some _ =>
        match r.policies with
        | .error _ => .error ()
        | .ok ps => scanRoles (acc || ps.contains lambdaFullAccess) rs
    else scanRoles acc rs

/-- The data `SHOW CREATE PROCEDURE` yields for one routine, plus the
result of matching the fixed lambda-ARN pattern `myExp` against the
routine source with `findNamedMatches` (main.go 43, 472, 834-842): the
captured `account` and `fn` groups, both `""` when nothing matches.
The regexp engine is external; its output on the source text is part
of the oracle. -/
structure ProcSource where
  source : String
  characterSetClient : String
  databaseCollation : String
  account : String
  fn : String
deriving DecidableEq

/-- One row of `SHOW PROCEDURE STATUS` (`Procedures` in the source),
together with the outcome of the follow-up `SHOW CREATE PROCEDURE`
query for it. -/
structure ProcInfo where
  database : String
  name : String
  showCreate : Except Unit ProcSource
deriving DecidableEq

/-- One entry of the diagnostic report (`CreateProcedure` in the
source): the fields the routine loop fills in. -/
structure CreateProcedure where
  database : String
  name : String
  accountCheck : String
  correctCollation : Bool
deriving DecidableEq

/-- `fmt.Sprintf("<span style='color: red;'>...", ...)` prefix used by
the per-routine diagnostics (main.go 478, 481). -/
def redSpan : String := "<span style=" ++ quo ++ "color: red;" ++ quo ++ ">"

/-- The per-routine ARN diagnostic (main.go 471-484): an HTML string
flagging an account mismatch for the expected callee, or an unexpected
function name; it is stored in the report entry and nothing else. -/
def accountCheckStr (accountID account fn : String) : String :=
  if fn == "alambda_simple" then
    if account != accountID then
      "Fn: " ++ fn ++ " Account: " ++ account ++
        redSpan ++ "Account ID " ++ account ++ " != " ++ accountID ++ "</span>\n"
    else "Fn: " ++ fn ++ " Account: " ++ account
  else
    "Fn: " ++ fn ++ " Account: " ++ account ++
      redSpan ++ "Function " ++ fn ++ " != " ++ "alambda_simple" ++ "</span>\n"

/-- The routine loop (main.go 451-492): skip the `sys` and `mysql`
schemas, skip a routine whose `SHOW CREATE PROCEDURE` fails
(`continue`), attach the ARN diagnostic to routines whose name starts
with `lambda`, and record collation correctness (database collation
`utf8mb4_unicode_520_ci` AND client charset `utf8mb4`). -/
def buildReport (accountID : String) : List ProcInfo → List CreateProcedure
  | [] => []
  | p :: ps =>
    if p.database == "sys" then buildReport accountID ps
    else if p.database == "mysql" then buildReport accountID ps
    else
      match p.showCreate with
      | .error _ => buildReport accountID ps
      | .ok src =>
        { database := p.database
          name := p.name
          accountCheck :=
            if ("lambda".data.isPrefixOf p.name.data : Bool) then
              accountCheckStr accountID src.account src.fn
            else ""
          correctCollation :=
            src.databaseCollation == "utf8mb4_unicode_520_ci" &&
              src.characterSetClient == "utf8mb4" } :: buildReport accountID ps

/-- How the `/checks` handler terminates: which `http.Error` (or silent
return, or success report) ends the request. -/
inductive ChecksOutcome where
  | invokerUnset
  | existsQueryErr
  | invokerMissing
  | grantsQueryErr
  | missingExecutePerms
  | rolePoliciesErr
  | missingLambdaAccess
  | procListErr
  | ok (report : List CreateProcedure)
deriving DecidableEq

/-- The database-query oracle of the `/checks` handler: the invoker
existence query (main.go 371), the `show grants` listing (main.go 384)
and the `SHOW PROCEDURE STATUS` listing (main.go 444). -/
structure ChecksEnv where
  invokerExists : Except Unit Bool
  grants : Except Unit (List String)
  procs : Except Unit (List ProcInfo)

/-- `handler.checks` (main.go 363-492), as the outcome the handler
terminates with. -/
def checks (lambdaInvoker accountID : String) (roles : List RoleInfo)
    (env : ChecksEnv) : ChecksOutcome :=
  if lambdaInvoker == "" then .invokerUnset
  else
    match env.invokerExists with
    | .error _ => .existsQueryErr
    | .ok invokerEx =>
      if !invokerEx then .invokerMissing
      else
        match env.grants with
        | .error _ => .grantsQueryErr
        | .ok gs =>
          if !(gs.contains (grantStr lambdaInvoker)) then .missingExecutePerms
          else
            match scanRoles false roles with
            | .error _ => .rolePoliciesErr
            | .ok lambdaAccess =>
              if !lambdaAccess then .missingLambdaAccess
              else
                match env.procs with
                | .error _ => .procListErr
                | .ok pp => .ok (buildReport accountID pp)

/- ------------------------------------------------------------------
Helper lemmas
------------------------------------------------------------------ -/

theorem iamLoop_any (dbs : List DBInstance) (g : Nat) :
    iamLoop dbs g =
      if dbs.any (fun db => db.iamDatabaseAuthenticationEnabled) then 1 else g := by
  induction dbs generalizing g with
  | nil => rfl
  | cons db dbs ih =>
    simp only [iamLoop, List.any_cons]
    by_cases h : db.iamDatabaseAuthenticationEnabled
    · simp [h, ih]
    · simp only [Bool.not_eq_true] at h
      simp [h, ih]

theorem insyncMembers_iff (ms : List Member) :
    insyncMembers ms = true ↔
      ∀ m ∈ ms, m.dbClusterParameterGroupStatus = "in-sync" := by
  induction ms with
  | nil => simp [insyncMembers]
  | cons m ms ih =>
    simp only [insyncMembers, List.mem_cons]
    by_cases h : m.dbClusterParameterGroupStatus = "in-sync"
    · simp [h, ih]
    · simp [h]

theorem insyncGroups_iff (gs : List ParamGroupRef) :
    insyncGroups gs = true ↔ ∀ g ∈ gs, g.parameterApplyStatus = "in-sync" := by
  induction gs with
  | nil => simp [insyncGroups]
  | cons g gs ih =>
    simp only [insyncGroups, List.mem_cons]
    by_cases h : g.parameterApplyStatus = "in-sync"
    · simp [h, ih]
    · simp [h]

theorem insyncDBs_iff (dbs : List DBInstance) :
    insyncDBs dbs = true ↔
      ∀ db ∈ dbs, ∀ g ∈ db.dbParameterGroups, g.parameterApplyStatus = "in-sync" := by
  induction dbs with
  | nil => simp [insyncDBs]
  | cons db dbs ih =>
    simp only [insyncDBs]
    by_cases h : insyncGroups db.dbParameterGroups = true
    · simp only [h, if_true, ih, List.forall_mem_cons]
      have hg := (insyncGroups_iff db.dbParameterGroups).mp h
      tauto
    · have hng : ¬ ∀ g ∈ db.dbParameterGroups,
          g.parameterApplyStatus = "in-sync" := fun hall => by
        rw [(insyncGroups_iff db.dbParameterGroups).mpr hall] at h
        exact h rfl
      simp only [Bool.not_eq_true] at h
      simp [h, hng]

/- ------------------------------------------------------------------
Claim theorems
------------------------------------------------------------------ -/

/-- C8: the engine-version and instance-class evaluators use a
first-match policy — `engineVersion` returns the engine-version field
of the first instance whose engine version is non-empty (`""` when all
are empty), `instanceClass` likewise for the instance class; in the
two-instance scenario where only the first instance reports version
"5.7.12" and class "db.r4.large", those are the values returned. -/
theorem engine_instance_first_match (dbs : List DBInstance) :
    (engineVersion dbs =
      ((dbs.find? fun db => db.engineVersion != "").map
        DBInstance.engineVersion).getD "") ∧
    (instanceClass dbs =
      ((dbs.find? fun db => db.dbInstanceClass != "").map
        DBInstance.dbInstanceClass).getD "") ∧
    engineVersion
      [⟨"one", "db.r4.large", "5.7.12", true, []⟩, ⟨"two", "", "", true, []⟩]
      = "5.7.12" ∧
    instanceClass
      [⟨"one", "db.r4.large", "5.7.12", true, []⟩, ⟨"two", "", "", true, []⟩]
      = "db.r4.large" := by
  refine ⟨?_, ?_, by decide, by decide⟩
  · induction dbs with
    | nil => rfl
    | cons db dbs ih =>
      simp only [engineVersion, List.find?]
      cases h : db.engineVersion != "" <;> simp_all
  · induction dbs with
    | nil => rfl
    | cons db dbs ih =>
      simp only [instanceClass, List.find?]
      cases h : db.dbInstanceClass != "" <;> simp_all

/-- C1 counterexample: a snapshot with two instances, the first with
the IAM-auth flag false and the second with it true — the claim says
the gauge must read 0, but `iamEnabled` reads 1. -/
theorem iam_conjunction_counterexample :
    iamEnabled
      [⟨"db1", "db.r4.large", "5.7.12", false, []⟩,
       ⟨"db2", "db.r4.large", "5.7.12", true, []⟩] = 1 ∧
    DBInstance.iamDatabaseAuthenticationEnabled
      ⟨"db1", "db.r4.large", "5.7.12", false, []⟩ = false := by
  decide

/-- C1 amended: the IAM evaluator is a disjunction, not a conjunction —
the gauge starts at 0 and is set to 1 at each instance whose flag is
set (never set back), so for every instance list the gauge reads 1 iff
at least one instance has the IAM-auth flag set, and 0 iff no instance
has it set. -/
theorem iam_disjunction (dbs : List DBInstance) :
    (iamEnabled dbs = 1 ↔
      ∃ db ∈ dbs, db.iamDatabaseAuthenticationEnabled = true) ∧
    (iamEnabled dbs = 0 ↔
      ∀ db ∈ dbs, db.iamDatabaseAuthenticationEnabled = false) := by
  unfold iamEnabled
  rw [iamLoop_any]
  cases h : dbs.any (fun db => db.iamDatabaseAuthenticationEnabled) <;>
    simp_all [List.any_eq_true, List.any_eq_false]

/-- C6: the synchronization evaluator's gauge reads 1 iff every cluster
member's `DBClusterParameterGroupStatus` and every instance parameter
group's `ParameterApplyStatus` equals `"in-sync"`; any other status
anywhere makes it read 0. -/
theorem insync_iff_applied (c : Cluster) (dbs : List DBInstance) :
    (insync c dbs = 1 ↔
      ((∀ m ∈ c.dbClusterMembers, m.dbClusterParameterGroupStatus = "in-sync") ∧
        ∀ db ∈ dbs, ∀ g ∈ db.dbParameterGroups,
          g.parameterApplyStatus = "in-sync")) ∧
    (insync c dbs = 0 ↔
      ¬ ((∀ m ∈ c.dbClusterMembers, m.dbClusterParameterGroupStatus = "in-sync") ∧
        ∀ db ∈ dbs, ∀ g ∈ db.dbParameterGroups,
          g.parameterApplyStatus = "in-sync")) := by
  have hif : insync c dbs =
      if insyncMembers c.dbClusterMembers && insyncDBs dbs then 1 else 0 := by
    by_cases h1 : insyncMembers c.dbClusterMembers <;>
      by_cases h2 : insyncDBs dbs <;>
        simp_all [insync, Bool.not_eq_true]
  rw [hif, ← insyncMembers_iff, ← insyncDBs_iff, ← Bool.and_eq_true]
  by_cases h : (insyncMembers c.dbClusterMembers && insyncDBs dbs) = true
  · simp [h]
  · simp only [Bool.not_eq_true] at h
    simp [h]

/-- Concrete fixture for the parameter-merge counterexample: one
cluster with one member, whose cluster-level parameter listing and
instance-level parameter page both carry `slow_query_log`, with
different values. -/
def c4cluster : Cluster := ⟨"ep", "available", "cgrp", [⟨"i1", "in-sync"⟩], []⟩

def c4inst : DBInstance := ⟨"i1", "db.r4.large", "5.6.10a", true, [⟨"igrp", "in-sync"⟩]⟩

def c4oracle : RdsOracle :=
  { clusters := .ok [c4cluster]
    clusterParams := fun _ => .ok [⟨"slow_query_log", some "0"⟩]
    instances := fun _ => .ok [c4inst]
    paramPages := fun _ => ⟨[[⟨"slow_query_log", some "1"⟩]], none⟩ }

/-- The snapshot the fixture assembles to: the cluster-level entry
precedes the instance-level entry for the same key. -/
def c4info : Dbinfo :=
  ⟨c4cluster, [c4inst],
    [⟨"slow_query_log", some "0"⟩, ⟨"slow_query_log", some "1"⟩]⟩

/-- C4 counterexample: an assembled snapshot whose parameter collection
holds two entries named `slow_query_log` with values "0" (appended
first, from the cluster group) and "1" (appended last, from the
instance group); the claim says `lookup` observes the later value "1",
but it returns the earlier value "0". -/
theorem merge_last_writer_counterexample :
    describeCluster "host" (.ok [⟨".", "Z"⟩])
        (fun _ => .ok [⟨"host.", ["ep"]⟩]) c4oracle = .ok c4info ∧
    c4info.params =
      [⟨"slow_query_log", some "0"⟩, ⟨"slow_query_log", some "1"⟩] ∧
    lookup c4info.params "slow_query_log" = "0" ∧
    ("0" : String) ≠ "1" := by
  decide

/-- C4 amended: the merged parameter collection is read through
`lookup`, which is first-writer-wins — for every parameter list and
key, the effective value is the value of the earliest entry whose name
matches and whose value is non-nil (entries with a nil value are
skipped), and `""` when there is no such entry. -/
theorem lookup_first_writer (params : List Param) (key : String) :
    lookup params key =
      ((params.find? fun p => p.name == key && p.value.isSome).bind
        Param.value).getD "" := by
  induction params with
  | nil => rfl
  | cons p ps ih =>
    simp only [lookup, List.find?]
    cases hn : p.name == key <;> cases hv : p.value <;>
      simp_all [lookup, Option.isSome]

/-- The suffix test `zoneScan` applies to one zone, as a Boolean:
the Go slice comparison on character strings. -/
theorem zoneScan_find (host : String) :
    ∀ zs : List HostedZone,
      (∀ z ∈ zs, (trimRightDot z.name).length ≤ host.length) →
      zoneScan host zs =
        (match zs.find? (fun z =>
            host.drop (host.length - (trimRightDot z.name).length)
              == trimRightDot z.name) with
        | some z => Res.ok z.id
        | none => Res.err (.zoneNotFound host))
  | [], _ => rfl
  | z :: zs, h => by
    have hz := h z (List.mem_cons_self z zs)
    have hlt : ¬ (host.length < (trimRightDot z.name).length) := Nat.not_lt.mpr hz
    by_cases hs : (host.drop (host.length - (trimRightDot z.name).length)
        == trimRightDot z.name) = true
    · have hfind : List.find? (fun zz =>
          host.drop (host.length - (trimRightDot zz.name).length)
            == trimRightDot zz.name) (z :: zs) = some z := by
        simp [List.find?, hs]
      rw [hfind]
      simp [zoneScan, hlt, hs]
    · simp only [Bool.not_eq_true] at hs
      have hfind : List.find? (fun zz =>
          host.drop (host.length - (trimRightDot zz.name).length)
            == trimRightDot zz.name) (z :: zs) =
          List.find? (fun zz =>
            host.drop (host.length - (trimRightDot zz.name).length)
              == trimRightDot zz.name) zs := by
        simp [List.find?, hs]
      rw [hfind,
        ← zoneScan_find host zs (fun z' hz' => h z' (List.mem_cons_of_mem _ hz'))]
      simp [zoneScan, hlt, hs]

/-- C2 counterexample: with hostname "a.b.com" and two visible zones
"com." (id Z1) and "b.com." (id Z2), both zone names are suffixes and
"b.com" is the longer one, yet the resolver returns Z1 when "com." is
listed first and Z2 when "b.com." is listed first — neither the
longest match nor order-independent. -/
theorem zone_longest_counterexample :
    lookupHostedZone "a.b.com" (.ok [⟨"com.", "Z1"⟩, ⟨"b.com.", "Z2"⟩])
      = .ok "Z1" ∧
    lookupHostedZone "a.b.com" (.ok [⟨"b.com.", "Z2"⟩, ⟨"com.", "Z1"⟩])
      = .ok "Z2" ∧
    (trimRightDot "com.").length < (trimRightDot "b.com.").length ∧
    ("Z1" : String) ≠ "Z2" := by
  decide

/-- C2 amended: when every visible zone's trimmed name is no longer
than the hostname, hosted-zone resolution returns the id of the FIRST
zone in listing order whose trimmed name is a suffix of the hostname
(so the result does depend on listing order when several zones match),
and a NotFound-style error when no zone's trimmed name is a suffix. -/
theorem zone_first_suffix_in_order (host : String) (zs : List HostedZone)
    (h : ∀ z ∈ zs, (trimRightDot z.name).length ≤ host.length) :
    lookupHostedZone host (.ok zs) =
      (match zs.find? (fun z =>
          host.drop (host.length - (trimRightDot z.name).length)
            == trimRightDot z.name) with
      | some z => Res.ok z.id
      | none => Res.err (.zoneNotFound host)) :=
  zoneScan_find host zs h

/-- C2 amended, witness. -/
theorem zone_first_suffix_in_order_witness :
    lookupHostedZone "a.b.com" (.ok [⟨"com.", "Z1"⟩]) = .ok "Z1" := by
  rw [zone_first_suffix_in_order "a.b.com" [⟨"com.", "Z1"⟩] (by decide)]
  decide

/-- Reaching a zone whose trimmed name is strictly longer than the
hostname (every earlier zone neither too long nor matching) makes the
scan hit the negative slice bound. -/
theorem zoneScan_fault_reach (host : String) (z : HostedZone)
    (hz : host.length < (trimRightDot z.name).length) :
    ∀ pre : List HostedZone,
      (∀ z' ∈ pre, (trimRightDot z'.name).length ≤ host.length ∧
        (host.drop (host.length - (trimRightDot z'.name).length)
          == trimRightDot z'.name) = false) →
      ∀ post : List HostedZone, zoneScan host (pre ++ z :: post) = .fault
  | [], _, post => by simp [zoneScan, hz]
  | p :: pre, h, post => by
    have hp := h p (List.mem_cons_self p pre)
    have hlt : ¬ (host.length < (trimRightDot p.name).length) :=
      Nat.not_lt.mpr hp.1
    rw [List.cons_append]
    rw [← zoneScan_fault_reach host z hz pre
      (fun z' hz' => h z' (List.mem_cons_of_mem _ hz')) post]
    simp [zoneScan, hlt, hp.2]

/-- A scan over zones whose trimmed names all fit inside the hostname
never faults. -/
theorem zoneScan_no_fault (host : String) :
    ∀ zs : List HostedZone,
      (∀ z ∈ zs, (trimRightDot z.name).length ≤ host.length) →
      zoneScan host zs ≠ .fault
  | [], _ => by simp [zoneScan]
  | z :: zs, h => by
    have hlt : ¬ (host.length < (trimRightDot z.name).length) :=
      Nat.not_lt.mpr (h z (List.mem_cons_self z zs))
    by_cases hs : (host.drop (host.length - (trimRightDot z.name).length)
        == trimRightDot z.name) = true
    · simp [zoneScan, hlt, hs]
    · simp only [Bool.not_eq_true] at hs
      simp only [zoneScan, hlt, if_false, hs]
      exact zoneScan_no_fault host zs
        (fun z' hz' => h z' (List.mem_cons_of_mem _ hz'))

/-- C9 counterexample: a zone list containing a zone whose trimmed name
is strictly longer than the hostname on which the resolver does NOT
abort — the earlier zone "com." matches first, so the too-long zone is
never reached and the scan returns Z1. -/
theorem zone_toolong_counterexample :
    lookupHostedZone "a.com"
        (.ok [⟨"com.", "Z1"⟩, ⟨"a-much-longer-zone.example.", "Z2"⟩])
      = .ok "Z1" ∧
    ("a.com" : String).length
      < (trimRightDot "a-much-longer-zone.example.").length := by
  decide

/-- C9 amended: the resolver aborts with a runtime error exactly when
the scan reaches a too-long zone — if some zone's trimmed name is
strictly longer than the hostname and every zone listed before it fits
inside the hostname without matching, the scan faults (instead of
skipping that zone or returning NotFound); conversely, when every
visible zone's trimmed name is no longer than the hostname, the scan
never faults. -/
theorem zone_toolong_fault :
    (∀ (host : String) (z : HostedZone) (pre post : List HostedZone),
      host.length < (trimRightDot z.name).length →
      (∀ z' ∈ pre, (trimRightDot z'.name).length ≤ host.length ∧
        (host.drop (host.length - (trimRightDot z'.name).length)
          == trimRightDot z'.name) = false) →
      lookupHostedZone host (.ok (pre ++ z :: post)) = .fault) ∧
    (∀ (host : String) (zs : List HostedZone),
      (∀ z ∈ zs, (trimRightDot z.name).length ≤ host.length) →
      lookupHostedZone host (.ok zs) ≠ .fault) :=
  ⟨fun host z pre post hz hpre => zoneScan_fault_reach host z hz pre hpre post,
   fun host zs h => zoneScan_no_fault host zs h⟩

/-- C9 amended, witness: a too-long zone in first position faults; a
fitting zone list does not. -/
theorem zone_toolong_fault_witness :
    lookupHostedZone "a.com" (.ok [⟨"a-much-longer-zone.example.", "Z2"⟩])
      = .fault ∧
    lookupHostedZone "a.com" (.ok [⟨"com.", "Z1"⟩]) ≠ .fault :=
  ⟨zone_toolong_fault.1 "a.com" ⟨"a-much-longer-zone.example.", "Z2"⟩ [] []
      (by decide) (by decide),
   zone_toolong_fault.2 "a.com" [⟨"com.", "Z1"⟩] (by decide)⟩

/-- The record loop returns, for the first record set whose name is
the hostname plus a trailing dot, the head of its resource records —
verbatim. -/
theorem recordScan_find (host : String) :
    ∀ rs : List RecordSet,
      recordScan host rs =
        (match rs.find? (fun r => r.name == host ++ ".") with
        | some r =>
          match r.resourceRecords with
          | [] => Res.fault
          | v :: _ => Res.ok v
        | none => Res.err (.noAlias host))
  | [] => rfl
  | r :: rs => by
    by_cases hn : (r.name == host ++ ".") = true
    · have hfind : List.find? (fun rr => rr.name == host ++ ".") (r :: rs)
          = some r := by
        simp [List.find?, hn]
      rw [hfind]
      simp [recordScan, hn]
    · simp only [Bool.not_eq_true] at hn
      have hfind : List.find? (fun rr => rr.name == host ++ ".") (r :: rs)
          = List.find? (fun rr => rr.name == host ++ ".") rs := by
        simp [List.find?, hn]
      rw [hfind, ← recordScan_find host rs]
      simp [recordScan, hn]

/-- C3 counterexample: the matching record's alias target carries a
trailing dot, and the claim says the returned value has it stripped —
but `lookupClusterName` returns the record value verbatim, trailing
dot included. -/
theorem alias_strip_counterexample :
    lookupClusterName "db.unee-t.com" (.ok [⟨"unee-t.com.", "Z"⟩])
        (fun _ => .ok [⟨"db.unee-t.com.", ["cluster.rds.amazonaws.com."]⟩])
      = .ok "cluster.rds.amazonaws.com." ∧
    ("cluster.rds.amazonaws.com." : String) ≠ "cluster.rds.amazonaws.com" := by
  decide

/-- C3 amended: once a hosted zone is found and the record listing
succeeds, alias resolution returns the value of the first resource
record of the first record set whose name equals the hostname followed
by a trailing dot, VERBATIM (no trailing-dot stripping); when no
record name matches it returns a NotFound-style error (and indexing
the first resource record of a matching record set with an empty
record list is a runtime fault). -/
theorem alias_first_record_verbatim :
    (∀ (host : String) (zones : Except Unit (List HostedZone))
        (records : String → Except Unit (List RecordSet))
        (hz : String) (rs : List RecordSet),
      lookupHostedZone host zones = .ok hz → records hz = .ok rs →
      lookupClusterName host zones records = recordScan host rs) ∧
    (∀ (host : String) (rs : List RecordSet),
      recordScan host rs =
        (match rs.find? (fun r => r.name == host ++ ".") with
        | some r =>
          match r.resourceRecords with
          | [] => Res.fault
          | v :: _ => Res.ok v
        | none => Res.err (.noAlias host))) := by
  constructor
  · intro host zones records hz rs h1 h2
    simp [lookupClusterName, h1, h2]
  · intro host rs
    exact recordScan_find host rs

/-- C3 amended, witness. -/
theorem alias_first_record_verbatim_witness :
    lookupClusterName "db.x.com" (.ok [⟨"x.com.", "Z"⟩])
        (fun _ => .ok [⟨"db.x.com.", ["t.rds."]⟩]) = .ok "t.rds." := by
  rw [alias_first_record_verbatim.1 "db.x.com" (.ok [⟨"x.com.", "Z"⟩])
    (fun _ => .ok [⟨"db.x.com.", ["t.rds."]⟩]) "Z" [⟨"db.x.com.", ["t.rds."]⟩]
    (by decide) rfl]
  decide

/-- C10: when the resource-record-listing request fails, its error is
assigned but never examined; the code proceeds to iterate over the
absent (nil) response, which is a runtime fault — the provider error
is never returned as `lookupClusterName`'s error result. -/
theorem listrecords_error_fault (host : String)
    (zones : Except Unit (List HostedZone))
    (records : String → Except Unit (List RecordSet)) (hz : String)
    (h1 : lookupHostedZone host zones = .ok hz)
    (h2 : records hz = .error ()) :
    lookupClusterName host zones records = .fault := by
  simp [lookupClusterName, h1, h2]

/-- C10, witness. -/
theorem listrecords_error_fault_witness :
    lookupClusterName "db.x.org" (.ok [⟨"x.org.", "Z9"⟩])
        (fun _ => .error ()) = .fault :=
  listrecords_error_fault "db.x.org" (.ok [⟨"x.org.", "Z9"⟩])
    (fun _ => .error ()) "Z9" (by decide) rfl

/-- Erase the error outcome of every parameter-page stream of an
oracle, keeping the delivered pages. -/
def clearPageErr (o : RdsOracle) : RdsOracle :=
  { o with paramPages := fun g => ⟨(o.paramPages g).pages, none⟩ }

theorem fetchInstances_congr (o o' : RdsOracle) (h : o'.instances = o.instances) :
    ∀ ms : List Member, fetchInstances o' ms = fetchInstances o ms
  | [] => rfl
  | m :: ms => by
    simp only [fetchInstances, h, fetchInstances_congr o o' h ms]

theorem groupLoop_congr (o o' : RdsOracle)
    (h : ∀ g, drainPages (o'.paramPages g) = drainPages (o.paramPages g)) :
    ∀ (gs : List ParamGroupRef) (acc : List Param),
      groupLoop o' acc gs = groupLoop o acc gs
  | [], _ => rfl
  | g :: gs, acc => by
    simp only [groupLoop, h g.name]
    exact groupLoop_congr o o' h gs _

theorem instParamLoop_congr (o o' : RdsOracle)
    (h : ∀ g, drainPages (o'.paramPages g) = drainPages (o.paramPages g)) :
    ∀ (dbs : List DBInstance) (acc : List Param),
      instParamLoop o' acc dbs = instParamLoop o acc dbs
  | [], _ => rfl
  | db :: dbs, acc => by
    simp only [instParamLoop]
    cases hg : db.dbParameterGroups with
    | nil => rfl
    | cons g gs =>
      rw [groupLoop_congr o o' h (g :: gs) acc]
      exact instParamLoop_congr o o' h dbs _

theorem assembleCluster_congr (o o' : RdsOracle)
    (h1 : o'.clusterParams = o.clusterParams)
    (h2 : o'.instances = o.instances)
    (h3 : ∀ g, drainPages (o'.paramPages g) = drainPages (o.paramPages g))
    (c : Cluster) :
    assembleCluster o' c = assembleCluster o c := by
  simp only [assembleCluster, h1, fetchInstances_congr o o' h2,
    instParamLoop_congr o o' h3]

theorem clusterScan_congr (o o' : RdsOracle)
    (h1 : o'.clusterParams = o.clusterParams)
    (h2 : o'.instances = o.instances)
    (h3 : ∀ g, drainPages (o'.paramPages g) = drainPages (o.paramPages g))
    (host ep : String) :
    ∀ cs : List Cluster, clusterScan host ep o' cs = clusterScan host ep o cs
  | [] => rfl
  | c :: cs => by
    simp only [clusterScan, assembleCluster_congr o o' h1 h2 h3 c,
      clusterScan_congr o o' h1 h2 h3 host ep cs]

/-- Concrete fixture for the pagination-error counterexample: the only
instance parameter-group page stream delivers one page and then fails. -/
def c5cluster : Cluster := ⟨"ep5", "available", "cg5", [⟨"j1", "in-sync"⟩], []⟩

def c5inst : DBInstance := ⟨"j1", "db.r4.large", "5.6.10a", true, [⟨"ig5", "in-sync"⟩]⟩

def c5oracle : RdsOracle :=
  { clusters := .ok [c5cluster]
    clusterParams := fun _ => .ok [⟨"a", some "1"⟩]
    instances := fun _ => .ok [c5inst]
    paramPages := fun _ => ⟨[[⟨"b", some "2"⟩]], some ()⟩ }

/-- C5 counterexample: the instance-parameter pagination ends with an
error (`p.Err()` is `some ()`), and the claim says assembly must abort
with a provider failure — but `describeCluster` returns a successful
snapshot carrying the partially gathered parameter collection. -/
theorem pagination_abort_counterexample :
    (c5oracle.paramPages "ig5").pageErr = some () ∧
    describeCluster "host5" (.ok [⟨".", "Z5"⟩])
        (fun _ => .ok [⟨"host5.", ["ep5"]⟩]) c5oracle
      = .ok ⟨c5cluster, [c5inst], [⟨"a", some "1"⟩, ⟨"b", some "2"⟩]⟩ := by
  decide

/-- C5 amended: the aggregator appends every page the paginator
delivers, but `p.Err()` is never consulted — the assembly result is
identical whether or not pagination ended with an error, so a
pagination failure neither aborts the assembly nor surfaces to the
caller, and the partially gathered collection is returned as part of a
successful result.  (Errors of the non-paginated control-plane calls
do abort assembly, checked at their call sites.) -/
theorem pagination_error_ignored (host : String)
    (zones : Except Unit (List HostedZone))
    (records : String → Except Unit (List RecordSet)) (o : RdsOracle) :
    describeCluster host zones records (clearPageErr o)
      = describeCluster host zones records o := by
  simp only [describeCluster,
    show (clearPageErr o).clusters = o.clusters from rfl,
    clusterScan_congr o (clearPageErr o) rfl rfl (fun _ => rfl) host]

/-- Under the stated role hypothesis (every active role's policies were
fetched and none carries the required policy), the role scan preserves
its accumulator. -/
theorem scanRoles_no_access :
    ∀ (roles : List RoleInfo) (acc : Bool),
      (∀ r ∈ roles, r.status = "ACTIVE" → r.arnResource.isSome →
        ∃ ps, r.policies = .ok ps ∧ ps.contains lambdaFullAccess = false) →
      scanRoles acc roles = .ok acc
  | [], _, _ => rfl
  | r :: rs, acc, h => by
    have ht := h r (List.mem_cons_self r rs)
    have htail := fun r' hr' => h r' (List.mem_cons_of_mem _ hr')
    by_cases hst : r.status = "ACTIVE"
    · cases ha : r.arnResource with
      | none => simp [scanRoles, hst, ha, scanRoles_no_access rs acc htail]
      | some a =>
        obtain ⟨ps, hps, hcon⟩ := ht hst (by simp [ha])
        have hmem : lambdaFullAccess ∉ ps := by simpa using hcon
        simp [scanRoles, hst, ha, hps, hmem,
          scanRoles_no_access rs acc htail]
    · simp [scanRoles, hst, scanRoles_no_access rs acc htail]

/-- C7: the Lambda-Integration gate checks its prerequisites in order
and fails at the first unmet one — (1) a non-existing invoker
principal fails the gate with `invokerMissing` whatever the grants and
roles hold; (2) an existing principal whose grants listing lacks the
exact execute-grant string fails at the grants step whatever the roles
hold; (3) correct principal and grants with no active role carrying
the required policy fails at the role step; (4) once steps 1-3 pass,
the outcome is the success report for WHATEVER the routine listing
contains — the per-routine ARN inspection never fails the gate. -/
theorem checks_gate_order :
    (∀ (inv acc : String) (roles : List RoleInfo) (env : ChecksEnv),
      inv ≠ "" → env.invokerExists = .ok false →
      checks inv acc roles env = .invokerMissing) ∧
    (∀ (inv acc : String) (roles : List RoleInfo) (env : ChecksEnv)
        (gs : List String),
      inv ≠ "" → env.invokerExists = .ok true → env.grants = .ok gs →
      gs.contains (grantStr inv) = false →
      checks inv acc roles env = .missingExecutePerms) ∧
    (∀ (inv acc : String) (roles : List RoleInfo) (env : ChecksEnv)
        (gs : List String),
      inv ≠ "" → env.invokerExists = .ok true → env.grants = .ok gs →
      gs.contains (grantStr inv) = true →
      (∀ r ∈ roles, r.status = "ACTIVE" → r.arnResource.isSome →
        ∃ ps, r.policies = .ok ps ∧ ps.contains lambdaFullAccess = false) →
      checks inv acc roles env = .missingLambdaAccess) ∧
    (∀ (inv acc : String) (roles : List RoleInfo) (env : ChecksEnv)
        (gs : List String) (pp : List ProcInfo),
      inv ≠ "" → env.invokerExists = .ok true → env.grants = .ok gs →
      gs.contains (grantStr inv) = true →
      scanRoles false roles = .ok true → env.procs = .ok pp →
      checks inv acc roles env = .ok (buildReport acc pp)) := by
  refine ⟨?_, ?_, ?_, ?_⟩
  · intro inv acc roles env h0 h1
    simp [checks, h0, h1]
  · intro inv acc roles env gs h0 h1 h2 h3
    have h3' : grantStr inv ∉ gs := by simpa using h3
    simp [checks, h0, h1, h2, h3']
  · intro inv acc roles env gs h0 h1 h2 h3 h4
    have h3' : grantStr inv ∈ gs := by simpa using h3
    simp [checks, h0, h1, h2, h3', scanRoles_no_access roles false h4]
  · intro inv acc roles env gs pp h0 h1 h2 h3 h4 h5
    have h3' : grantStr inv ∈ gs := by simpa using h3
    simp [checks, h0, h1, h2, h3', h4, h5]

/-- C7, witness: each of the four gate facts at a concrete input. -/
theorem checks_gate_order_witness :
    checks "lambda_invoker" "812" [] ⟨.ok false, .ok [], .ok []⟩
      = .invokerMissing ∧
    checks "lambda_invoker" "812" [] ⟨.ok true, .ok [], .ok []⟩
      = .missingExecutePerms ∧
    checks "lambda_invoker" "812" [⟨"ACTIVE", some "role/r", .ok ["p"]⟩]
        ⟨.ok true, .ok [grantStr "lambda_invoker"], .ok []⟩
      = .missingLambdaAccess ∧
    checks "lambda_invoker" "812"
        [⟨"ACTIVE", some "role/r", .ok [lambdaFullAccess]⟩]
        ⟨.ok true, .ok [grantStr "lambda_invoker"],
          .ok [⟨"bugzilla", "lambda_p", .ok ⟨"s", "utf8mb4",
            "utf8mb4_unicode_520_ci", "812", "alambda_simple"⟩⟩]⟩
      = .ok (buildReport "812" [⟨"bugzilla", "lambda_p", .ok ⟨"s", "utf8mb4",
          "utf8mb4_unicode_520_ci", "812", "alambda_simple"⟩⟩]) := by
  refine ⟨?_, ?_, ?_, ?_⟩
  · exact checks_gate_order.1 "lambda_invoker" "812" _ _ (by decide) rfl
  · exact checks_gate_order.2.1 "lambda_invoker" "812" _ _ []
      (by decide) rfl rfl (by decide)
  · exact checks_gate_order.2.2.1 "lambda_invoker" "812" _ _
      [grantStr "lambda_invoker"] (by decide) rfl rfl (by decide)
      (by
        intro r hr hst hsome
        rw [List.mem_singleton] at hr
        subst hr
        exact ⟨["p"], rfl, by decide⟩)
  · exact checks_gate_order.2.2.2 "lambda_invoker" "812" _ _
      [grantStr "lambda_invoker"] _ (by decide) rfl rfl (by decide)
      (by decide) rfl

end Dbcheck
